import Mathlib

/-!
Shallow embedding of the echozap access-log middleware
(`ZapLoggerWithConfig` and its helpers).

Side effects on collaborators are modelled as explicit output values:
the leveled log call becomes a `LogRecord` value, calls to the framework
error reporter (`c.Error`) become a counter, and the body-read-failure
warning becomes a flag.  Non-deterministic environment observations
(`time.Now`, `time.Since`) are inputs carried in the context.
-/

namespace Echozap

/-- Zap log levels (`zapcore.Level`). -/
inductive Level
  | debug
  | info
  | warn
  | error
  | dpanic
  | panicL
  | fatal
deriving DecidableEq, Repr

/-- Context values (`interface\x7b\x7d` results of `ctx.Value`); opaque payloads,
modelled as strings. -/
abbrev CtxValue := String

/-- A context key (`interface\x7b\x7d`): `repr` is what `fmt.Sprintf` with the
`v` verb prints for it, `id` its identity under Go equality. -/
structure CtxKey where
  repr : String
  id : Nat
deriving DecidableEq, Repr

/-- A structured zap field value.  `skip` is the no-op field that
`zap.Error(nil)` produces; `any` is a `zap.Any` context value; `err` and
`namedErr` carry error messages. -/
inductive FieldValue
  | str (s : String)
  | int (i : Int)
  | err (msg : String)
  | namedErr (msg : String)
  | any (v : CtxValue)
  | skip
deriving DecidableEq, Repr

/-- A named zap field. -/
structure Field where
  key : String
  value : FieldValue
deriving DecidableEq, Repr

/-- A handler error: either an `echo.HTTPError` (possibly wrapping an
internal cause) or any other error value. -/
inductive Err
  | httpError (msg : String) (internal : Option String)
  | generic (msg : String)
deriving DecidableEq, Repr

/-- The error's `Error()` message. -/
def Err.message : Err → String
  | .httpError m _ => m
  | .generic m => m

/-- `zap.Error`: the no-op `Skip` field on a nil error, otherwise a field
keyed `error` holding the error. -/
def zapError : Option Err → Field
  | none => ⟨"", FieldValue.skip⟩
  | some e => ⟨"error", FieldValue.err e.message⟩

/-- An HTTP request as observed by the middleware after the handler ran.
`headers` maps canonical MIME header names to values; `body` is the result
of `ioutil.ReadAll(req.Body)`; `ctx` is the request context's key-value
store (`ctx.Value` looks keys up here). -/
structure Request where
  host : String
  method : String
  requestURI : String
  userAgent : String
  headers : List (String × String)
  body : Except String String
  ctx : List (CtxKey × CtxValue)

/-- The response state after the handler ran: `status` and written byte
count `size`, plus response headers. -/
structure Response where
  status : Int
  size : Int
  headers : List (String × String)

/-- The `echo.Context` state observed by the middleware after the handler
returned, together with the environment observations the middleware makes
(`time.Now().Format(time.RFC3339Nano)`, `time.Since(start)`). -/
structure EchoContext where
  request : Request
  response : Response
  realIP : String
  timeNow : String
  latencyNanos : Int
  latencyHuman : String

/-- `Header.Get`: the first value for a (canonical) header name, or the
empty string when the header is absent. -/
def getHeader (hs : List (String × String)) (k : String) : String :=
  match hs.find? (fun p => p.1 == k) with
  | some p => p.2
  | none => ""

/-- `ctx.Value`: innermost-first lookup of a key in the request context,
`none` for nil. -/
def ctxValue (ctx : List (CtxKey × CtxValue)) (k : CtxKey) : Option CtxValue :=
  match ctx.find? (fun p => p.1 == k) with
  | some p => some p.2
  | none => none

/-- `strconv.ParseInt(s, 10, 64)`: optional sign, then one or more decimal
digits, value within the signed 64-bit range; `none` on any syntax or
range error (the caller then treats the length as 0). -/
def parseDigits : List Char → Nat → Option Nat
  | [], acc => some acc
  | c :: cs, acc =>
    if c.isDigit then parseDigits cs (acc * 10 + (c.toNat - 48)) else none

/-- See `parseDigits`; entry point mirroring `strconv.ParseInt` at base 10
and bit size 64. -/
def parseInt64 (s : String) : Option Int :=
  match s.data with
  | [] => none
  | c :: cs =>
    let neg := c = '-'
    let digits := if c = '-' ∨ c = '+' then cs else c :: cs
    match digits with
    | [] => none
    | _ =>
      match parseDigits digits 0 with
      | none => none
      | some n =>
        if neg then
          if n ≤ 2 ^ 63 then some (-(n : Int)) else none
        else
          if n ≤ 2 ^ 63 - 1 then some (n : Int) else none

/-- Middleware configuration (`Config`). -/
structure Config where
  Skipper : EchoContext → Bool
  ContextKeys : List CtxKey
  PrintBody : Bool
  LogLevel : Option (Int → Level)

/-- `DefaultSkipper` returns false which processes the middleware. -/
def DefaultSkipper : EchoContext → Bool := fun _ => false

/-- `DefaultLogLevel` is Error for HTTP 5xx, Warn for 4xx, and Info
otherwise. -/
def DefaultLogLevel (status : Int) : Level :=
  if status ≥ 500 then Level.error
  else if status ≥ 400 then Level.warn
  else Level.info

/-- `DefaultConfig`. -/
def DefaultConfig : Config :=
  { Skipper := DefaultSkipper
    ContextKeys := []
    PrintBody := true
    LogLevel := some DefaultLogLevel }

/-- `getContextFields`: for each key in order, look it up in the context;
nil lookups are skipped, hits become a `zap.Any` field keyed by the
`fmt.Sprintf`-formatted key. -/
def getContextFields (ctx : List (CtxKey × CtxValue)) (keys : List CtxKey) :
    List Field :=
  match keys with
  | [] => []
  | k :: rest =>
    match ctxValue ctx k with
    | none => getContextFields ctx rest
    | some v => ⟨k.repr, FieldValue.any v⟩ :: getContextFields ctx rest

/-- The parsed declared content length: `bytes_in` source value (0 when
the header is absent or unparseable). -/
def contentLength (req : Request) : Int :=
  (parseInt64 (getHeader req.headers "Content-Length")).getD 0

/-- One leveled log call handed to the logger collaborator: level, message,
the logger's `With` context fields, and the call-site fields. -/
structure LogRecord where
  level : Level
  msg : String
  withFields : List Field
  fields : List Field
deriving DecidableEq, Repr

/-- Observable outcome of one middleware invocation: the middleware's own
returned error, the number of `c.Error` calls made, whether the body-read
warning was logged, and the access-log call (none when skipped). -/
structure MwResult where
  ret : Option Err
  errorCalls : Nat
  bodyWarn : Bool
  record : Option LogRecord
deriving DecidableEq, Repr

/-- The nine unconditional fields built first (lines 63-73 of the
source: time, remote_ip, host, method, uri, user_agent, status, latency,
latency_human). -/
def baseFields (c : EchoContext) : List Field :=
  [⟨"time", FieldValue.str c.timeNow⟩,
   ⟨"remote_ip", FieldValue.str c.realIP⟩,
   ⟨"host", FieldValue.str c.request.host⟩,
   ⟨"method", FieldValue.str c.request.method⟩,
   ⟨"uri", FieldValue.str c.request.requestURI⟩,
   ⟨"user_agent", FieldValue.str c.request.userAgent⟩,
   ⟨"status", FieldValue.int c.response.status⟩,
   ⟨"latency", FieldValue.int c.latencyNanos⟩,
   ⟨"latency_human", FieldValue.str c.latencyHuman⟩]

/-- The `bytes_in` / `bytes_out` fields (source lines 78-84). -/
def bytesFields (c : EchoContext) : List Field :=
  [⟨"bytes_in", FieldValue.int (contentLength c.request)⟩,
   ⟨"bytes_out", FieldValue.int c.response.size⟩]

/-- The body-capture guard (source line 86): print-body enabled and the
declared content length strictly between 0 and `1*bytes.KB` (1024). -/
def bodyGuard (config : Config) (req : Request) : Prop :=
  config.PrintBody = true ∧ 0 < contentLength req ∧ contentLength req < 1024

instance (config : Config) (req : Request) : Decidable (bodyGuard config req) := by
  unfold bodyGuard; infer_instance

/-- The body field segment (source lines 86-93): under the guard, a read
failure contributes nothing (a warning is logged instead), a successful
read contributes the raw body text as a `body` field. -/
def bodyStepFields (config : Config) (req : Request) : List Field :=
  if bodyGuard config req then
    match req.body with
    | .error _ => []
    | .ok body => [⟨"body", FieldValue.str body⟩]
  else []

/-- Whether the body-read warning (`log.Warn`, source line 89) fires. -/
def bodyStepWarn (config : Config) (req : Request) : Bool :=
  if bodyGuard config req then
    match req.body with
    | .error _ => true
    | .ok _ => false
  else false

/-- The error field segment (source lines 95-104): `zap.Error(err)` plus,
for an HTTP error wrapping an internal cause, a named `internal_error`
field. -/
def errStepFields : Option Err → List Field
  | none => []
  | some e =>
    zapError (some e) ::
      (match e with
       | .httpError _ (some internal) =>
         [⟨"internal_error", FieldValue.namedErr internal⟩]
       | _ => [])

/-- The request-ID tie-break segment (source lines 106-110): when the
request's `X-Request-Id` header is empty, append a `request_id` field
holding the response header's value (which may itself be empty). -/
def requestIdFields (c : EchoContext) : List Field :=
  if getHeader c.request.headers "X-Request-Id" = "" then
    [⟨"request_id",
      FieldValue.str (getHeader c.response.headers "X-Request-Id")⟩]
  else []

/-- All fields of the emitted record, concatenated in the source's append
order. -/
def allFields (config : Config) (c : EchoContext) (err : Option Err) :
    List Field :=
  baseFields c ++
    getContextFields c.request.ctx config.ContextKeys ++
    bytesFields c ++
    bodyStepFields config c.request ++
    errStepFields err ++
    requestIdFields c

/-- The level passed to `logWithLevel` (source lines 114-119): the
configured mapper when non-nil, `DefaultLogLevel` otherwise. -/
def levelOf (config : Config) (n : Int) : Level :=
  match config.LogLevel with
  | some f => f n
  | none => DefaultLogLevel n

/-- The per-request body of `ZapLoggerWithConfig` from `logger.go`,
evaluated on the post-handler context state `c` and the handler's result
`err`.  Each helper above translates one block of the source; side
effects appear as components of the result. -/
def ZapLoggerWithConfig (config : Config) (c : EchoContext)
    (err : Option Err) : MwResult :=
  let errorCalls0 : Nat := if err.isSome then 1 else 0
  if config.Skipper c then
    { ret := err, errorCalls := errorCalls0, bodyWarn := false, record := none }
  else
    let fields := allFields config c err
    let errorCalls := if err.isSome then errorCalls0 + 1 else errorCalls0
    let n := c.response.status
    let logLevel := levelOf config n
    let record : LogRecord :=
      if n ≥ 500 then
        { level := logLevel, msg := "Server error"
          withFields := [zapError err], fields := fields }
      else if n ≥ 400 then
        { level := logLevel, msg := "Client error"
          withFields := [], fields := fields }
      else if n ≥ 300 then
        { level := logLevel, msg := "Redirection"
          withFields := [], fields := fields }
      else
        { level := logLevel, msg := "Success"
          withFields := [], fields := fields }
    { ret := none, errorCalls := errorCalls
      bodyWarn := bodyStepWarn config c.request
      record := some record }

/-- `ZapLogger`: the no-config constructor, using `DefaultConfig`. -/
def ZapLogger (c : EchoContext) (err : Option Err) : MwResult :=
  ZapLoggerWithConfig DefaultConfig c err

/-! ## Helper lemmas -/

/-- Master unfolding of the non-skip path. -/
theorem zap_nonskip (config : Config) (c : EchoContext) (err : Option Err)
    (hskip : config.Skipper c = false) :
    ZapLoggerWithConfig config c err =
      { ret := none
        errorCalls := if err.isSome then 2 else 0
        bodyWarn := bodyStepWarn config c.request
        record := some
          { level := levelOf config c.response.status
            msg := if c.response.status ≥ 500 then "Server error"
                   else if c.response.status ≥ 400 then "Client error"
                   else if c.response.status ≥ 300 then "Redirection"
                   else "Success"
            withFields := if c.response.status ≥ 500 then [zapError err] else []
            fields := allFields config c err } } := by
  unfold ZapLoggerWithConfig
  simp only [hskip, Bool.false_eq_true, if_false]
  cases err <;> split_ifs <;> rfl

/-- Every field produced by `getContextFields` is keyed by the formatted
text of one of the configured keys and carries a `zap.Any` value. -/
theorem getContextFields_shape (ctx : List (CtxKey × CtxValue)) :
    ∀ keys : List CtxKey, ∀ f ∈ getContextFields ctx keys,
      (∃ k, k ∈ keys ∧ f.key = k.repr) ∧ ∃ v, f.value = FieldValue.any v := by
  intro keys
  induction keys with
  | nil => intro f hf; simp [getContextFields] at hf
  | cons k rest ih =>
    intro f hf
    unfold getContextFields at hf
    cases hv : ctxValue ctx k with
    | none =>
      rw [hv] at hf
      obtain ⟨⟨k2, hk2, hkey⟩, hval⟩ := ih f hf
      exact ⟨⟨k2, List.mem_cons_of_mem k hk2, hkey⟩, hval⟩
    | some v =>
      rw [hv] at hf
      rcases List.mem_cons.mp hf with h | h
      · subst h
        exact ⟨⟨k, List.mem_cons_self k rest, rfl⟩, ⟨v, rfl⟩⟩
      · obtain ⟨⟨k2, hk2, hkey⟩, hval⟩ := ih f h
        exact ⟨⟨k2, List.mem_cons_of_mem k hk2, hkey⟩, hval⟩

/-- `getContextFields` is the in-order image of the keys whose lookup is
non-nil. -/
theorem getContextFields_eq_filterMap (ctx : List (CtxKey × CtxValue)) :
    ∀ keys : List CtxKey,
      getContextFields ctx keys =
        keys.filterMap (fun k =>
          (ctxValue ctx k).map (fun v => Field.mk k.repr (FieldValue.any v))) := by
  intro keys
  induction keys with
  | nil => rfl
  | cons k rest ih =>
    unfold getContextFields
    cases hv : ctxValue ctx k <;> simp [List.filterMap_cons, hv, ih]

/-- Every field of the body-capture segment is keyed `body` with a string
value read from the request body. -/
theorem bodyStepFields_shape (config : Config) (req : Request) :
    ∀ f ∈ bodyStepFields config req,
      ∃ b, f = Field.mk "body" (FieldValue.str b) ∧ req.body = .ok b := by
  intro f hf
  unfold bodyStepFields at hf
  split at hf
  · cases hb : req.body with
    | error e => rw [hb] at hf; simp at hf
    | ok b => rw [hb] at hf; simp at hf; exact ⟨b, hf, rfl⟩
  · simp at hf

/-- Membership characterization of the body-capture segment. -/
theorem mem_bodyStepFields (config : Config) (req : Request) (b : String) :
    Field.mk "body" (FieldValue.str b) ∈ bodyStepFields config req ↔
      bodyGuard config req ∧ req.body = .ok b := by
  unfold bodyStepFields
  split
  · rename_i hguard
    cases hb : req.body with
    | error e => simp [hb]
    | ok b2 => simp [hguard, hb, eq_comm]
  · rename_i hguard
    simp
    intro hg
    exact absurd hg hguard

/-- The body-read warning fires exactly when the guard holds and the read
fails. -/
theorem bodyStepWarn_iff (config : Config) (req : Request) :
    bodyStepWarn config req = true ↔
      bodyGuard config req ∧ ∃ e, req.body = .error e := by
  unfold bodyStepWarn
  split
  · rename_i hguard
    cases hb : req.body with
    | error e => simp [hguard]
    | ok b => simp [hguard, hb]
  · rename_i hguard
    simp
    intro hg
    exact absurd hg hguard

/-- Every field of the error segment is the `error` field or the
`internal_error` field, with an error-typed value. -/
theorem errStepFields_shape (err : Option Err) :
    ∀ f ∈ errStepFields err,
      (∃ m, f = Field.mk "error" (FieldValue.err m)) ∨
      (∃ m, f = Field.mk "internal_error" (FieldValue.namedErr m)) := by
  intro f hf
  cases err with
  | none => simp [errStepFields] at hf
  | some e =>
    unfold errStepFields zapError at hf
    rcases List.mem_cons.mp hf with h | h
    · exact Or.inl ⟨e.message, h⟩
    · cases e with
      | httpError m internal =>
        cases internal with
        | none => simp at h
        | some i =>
          simp at h
          exact Or.inr ⟨i, h⟩
      | generic m => simp at h

/-- A header absent from the list reads back as the empty string. -/
theorem getHeader_of_absent (hs : List (String × String)) (k : String)
    (h : ∀ p ∈ hs, p.1 ≠ k) : getHeader hs k = "" := by
  unfold getHeader
  have : hs.find? (fun p => p.1 == k) = none := by
    apply List.find?_eq_none.mpr
    intro p hp
    simpa using h p hp
  rw [this]

/-! ## Concrete sample inputs (used by witnesses and counterexamples) -/

/-- A plain GET request with no headers, an empty body and an empty
context. -/
def sampleRequest : Request :=
  { host := "example.com", method := "GET", requestURI := "/something"
    userAgent := "ua", headers := [], body := .ok "", ctx := [] }

/-- A sample post-handler context whose response carries status `n`. -/
def sampleCtx (n : Int) : EchoContext :=
  { request := sampleRequest
    response := { status := n, size := 0, headers := [] }
    realIP := "192.0.2.1", timeNow := "2024-01-01T00:00:00Z"
    latencyNanos := 1000, latencyHuman := "1ms" }

/-- A configuration that skips every request. -/
def skipAllConfig : Config :=
  { Skipper := fun _ => true, ContextKeys := [], PrintBody := true
    LogLevel := none }

/-- A configuration with no custom severity mapper (nil `LogLevel`). -/
def noMapperConfig : Config :=
  { Skipper := fun _ => false, ContextKeys := [], PrintBody := false
    LogLevel := none }

/-- A custom severity mapper as in the repository's own test:
500 and up to DPanic, 400 and up to Info, everything else to Debug. -/
def customLevel (status : Int) : Level :=
  if status ≥ 500 then Level.dpanic
  else if status ≥ 400 then Level.info
  else Level.debug

/-- A configuration installing `customLevel` as severity mapper. -/
def customMapperConfig : Config :=
  { Skipper := fun _ => false, ContextKeys := [], PrintBody := false
    LogLevel := some customLevel }

/-- A request carrying an `X-Request-Id` header. -/
def reqIdRequest : Request :=
  { host := "example.com", method := "GET", requestURI := "/something"
    userAgent := "ua", headers := [("X-Request-Id", "abc")]
    body := .ok "", ctx := [] }

/-- A context whose request and response both carry `X-Request-Id`. -/
def reqIdCtx : EchoContext :=
  { request := reqIdRequest
    response := { status := 200, size := 0, headers := [("X-Request-Id", "xyz")] }
    realIP := "192.0.2.1", timeNow := "2024-01-01T00:00:00Z"
    latencyNanos := 1000, latencyHuman := "1ms" }

/-- A configuration with body printing enabled. -/
def bodyConfig : Config :=
  { Skipper := fun _ => false, ContextKeys := [], PrintBody := true
    LogLevel := none }

/-- A request with declared content length 5 and readable body. -/
def bodyRequest : Request :=
  { host := "example.com", method := "POST", requestURI := "/something"
    userAgent := "ua", headers := [("Content-Length", "5")]
    body := .ok "hello", ctx := [] }

/-- A context around `bodyRequest`. -/
def bodyCtx : EchoContext :=
  { request := bodyRequest
    response := { status := 200, size := 2, headers := [] }
    realIP := "192.0.2.1", timeNow := "2024-01-01T00:00:00Z"
    latencyNanos := 1000, latencyHuman := "1ms" }

/-- Two sample context keys. -/
def ctxKeyA : CtxKey := ⟨"user_id", 1⟩

/-- See `ctxKeyA`. -/
def ctxKeyB : CtxKey := ⟨"trace", 2⟩

/-- A configuration asking for both sample context keys. -/
def ctxConfig : Config :=
  { Skipper := fun _ => false, ContextKeys := [ctxKeyA, ctxKeyB]
    PrintBody := false, LogLevel := none }

/-- A request whose context holds a value for `ctxKeyA` only. -/
def ctxRequest : Request :=
  { host := "example.com", method := "GET", requestURI := "/something"
    userAgent := "ua", headers := [], body := .ok ""
    ctx := [(ctxKeyA, "42")] }

/-- A context around `ctxRequest`. -/
def ctxCtx : EchoContext :=
  { request := ctxRequest
    response := { status := 200, size := 0, headers := [] }
    realIP := "192.0.2.1", timeNow := "2024-01-01T00:00:00Z"
    latencyNanos := 1000, latencyHuman := "1ms" }

/-! ## Claims -/

/-- C1: for every request the configured skip predicate accepts, the
middleware returns the wrapped handler's error unchanged, emits no
access-log record (no leveled log call, no fields) and logs no body
warning. -/
theorem skip_returns_err_no_log (config : Config) (c : EchoContext)
    (err : Option Err) (h : config.Skipper c = true) :
    (ZapLoggerWithConfig config c err).ret = err ∧
    (ZapLoggerWithConfig config c err).record = none ∧
    (ZapLoggerWithConfig config c err).bodyWarn = false := by
  unfold ZapLoggerWithConfig
  simp [h]

/-- Witness for C1 at a concrete skipped request carrying a handler
error. -/
theorem skip_returns_err_no_log_witness :
    skipAllConfig.Skipper (sampleCtx 200) = true ∧
    ((ZapLoggerWithConfig skipAllConfig (sampleCtx 200)
        (some (Err.generic "boom"))).ret = some (Err.generic "boom") ∧
      (ZapLoggerWithConfig skipAllConfig (sampleCtx 200)
        (some (Err.generic "boom"))).record = none ∧
      (ZapLoggerWithConfig skipAllConfig (sampleCtx 200)
        (some (Err.generic "boom"))).bodyWarn = false) :=
  ⟨rfl, skip_returns_err_no_log skipAllConfig (sampleCtx 200)
      (some (Err.generic "boom")) rfl⟩

/-- C2: for every non-skipped request, when no custom severity mapper is
configured (the `LogLevel` knob is nil, or left at the default mapping),
the emitted record's severity is a function of the response status alone:
Error for status at least 500, Warn for status in [400, 500), Info for
everything below 400. -/
theorem default_level_by_status (config : Config) (c : EchoContext)
    (err : Option Err) (hskip : config.Skipper c = false)
    (hlvl : config.LogLevel = none ∨ config.LogLevel = some DefaultLogLevel) :
    ((ZapLoggerWithConfig config c err).record.map LogRecord.level) =
      some (if c.response.status ≥ 500 then Level.error
            else if c.response.status ≥ 400 then Level.warn
            else Level.info) := by
  rw [zap_nonskip config c err hskip]
  rcases hlvl with h | h <;> simp [levelOf, h, DefaultLogLevel]

/-- Witness for C2 at a concrete 404 request under a nil severity
mapper. -/
theorem default_level_by_status_witness :
    noMapperConfig.Skipper (sampleCtx 404) = false ∧
    (noMapperConfig.LogLevel = none ∨
      noMapperConfig.LogLevel = some DefaultLogLevel) ∧
    ((ZapLoggerWithConfig noMapperConfig (sampleCtx 404) none).record.map
        LogRecord.level) =
      some (if (404 : Int) ≥ 500 then Level.error
            else if (404 : Int) ≥ 400 then Level.warn
            else Level.info) :=
  ⟨rfl, Or.inl rfl,
    default_level_by_status noMapperConfig (sampleCtx 404) none rfl (Or.inl rfl)⟩

/-- C3: for every non-skipped request the record's message is chosen only
by the fixed status thresholds (≥500 Server error, ≥400 Client error,
≥300 Redirection, otherwise Success), and under any custom severity
mapper the record's severity is exactly the mapper's output for the
status while the message expression does not mention the mapper. -/
theorem message_by_status_level_by_mapper (config : Config) (c : EchoContext)
    (err : Option Err) (hskip : config.Skipper c = false) :
    ((ZapLoggerWithConfig config c err).record.map LogRecord.msg) =
      some (if c.response.status ≥ 500 then "Server error"
            else if c.response.status ≥ 400 then "Client error"
            else if c.response.status ≥ 300 then "Redirection"
            else "Success") ∧
    ∀ f, config.LogLevel = some f →
      ((ZapLoggerWithConfig config c err).record.map LogRecord.level) =
        some (f c.response.status) := by
  rw [zap_nonskip config c err hskip]
  refine ⟨by simp, ?_⟩
  intro f hf
  simp [levelOf, hf]

/-- Witness for C3 at a concrete 500 request under the test's custom
mapper. -/
theorem message_by_status_level_by_mapper_witness :
    customMapperConfig.Skipper (sampleCtx 500) = false ∧
    (((ZapLoggerWithConfig customMapperConfig (sampleCtx 500) none).record.map
        LogRecord.msg) =
      some (if (sampleCtx 500).response.status ≥ 500 then "Server error"
            else if (sampleCtx 500).response.status ≥ 400 then "Client error"
            else if (sampleCtx 500).response.status ≥ 300 then "Redirection"
            else "Success") ∧
      ∀ f, customMapperConfig.LogLevel = some f →
        ((ZapLoggerWithConfig customMapperConfig (sampleCtx 500) none).record.map
            LogRecord.level) =
          some (f (sampleCtx 500).response.status)) :=
  ⟨rfl,
    message_by_status_level_by_mapper customMapperConfig (sampleCtx 500) none rfl⟩

/-- C4: the middleware's own returned error is nil on every non-skipped
request, and equals the handler's error exactly on the skip path. -/
theorem mw_return_value (config : Config) (c : EchoContext) (err : Option Err) :
    (ZapLoggerWithConfig config c err).ret =
      (if config.Skipper c then err else none) := by
  cases h : config.Skipper c
  · rw [zap_nonskip config c err h]
    simp
  · unfold ZapLoggerWithConfig
    simp [h]

/-- C9 counterexample: at a concrete non-skipped request whose handler
failed, the framework error reporter is called twice, not exactly
once. -/
theorem error_call_count_cex :
    (ZapLoggerWithConfig noMapperConfig (sampleCtx 200)
        (some (Err.generic "boom"))).errorCalls = 2 ∧
    ¬ (ZapLoggerWithConfig noMapperConfig (sampleCtx 200)
        (some (Err.generic "boom"))).errorCalls = 1 := by
  constructor <;> decide

/-- C9 amended: for every request whose handler returns a non-nil error,
the middleware reports it to the framework exactly once when the request
is skipped and exactly twice when it is not (once right after the handler
returns, once more while assembling the error fields). -/
theorem error_call_count (config : Config) (c : EchoContext) (e : Err) :
    (ZapLoggerWithConfig config c (some e)).errorCalls =
      (if config.Skipper c then 1 else 2) := by
  cases h : config.Skipper c
  · rw [zap_nonskip config c (some e) h]
    simp
  · unfold ZapLoggerWithConfig
    simp [h]

/-- C5 counterexample: at a concrete non-skipped request where neither
the request nor the response carries an `X-Request-Id` header, the
emitted record nevertheless contains a `request_id` field (holding the
empty string), contradicting the claim that no request-ID field is
emitted in that case. -/
theorem requestid_empty_emitted_cex :
    getHeader (sampleCtx 200).request.headers "X-Request-Id" = "" ∧
    getHeader (sampleCtx 200).response.headers "X-Request-Id" = "" ∧
    Field.mk "request_id" (FieldValue.str "") ∈
      ((ZapLoggerWithConfig noMapperConfig (sampleCtx 200) none).record.map
        LogRecord.fields).getD [] := by
  decide

/-- C5 amended: for every non-skipped request (whose configured context
keys do not format as `request_id`): if the request's `X-Request-Id`
header is non-empty no `request_id` field is emitted, even if the
response also carries one; if the request header is absent or empty, a
`request_id` field is always appended holding the response header's
value — which is the empty string when the response carries none
either. -/
theorem requestid_tiebreak (config : Config) (c : EchoContext)
    (err : Option Err) (hskip : config.Skipper c = false)
    (hctx : ∀ k ∈ config.ContextKeys, k.repr ≠ "request_id") :
    ∀ r, (ZapLoggerWithConfig config c err).record = some r →
      (getHeader c.request.headers "X-Request-Id" ≠ "" →
        ∀ f ∈ r.fields, f.key ≠ "request_id") ∧
      (getHeader c.request.headers "X-Request-Id" = "" →
        Field.mk "request_id"
          (FieldValue.str (getHeader c.response.headers "X-Request-Id")) ∈
          r.fields) := by
  rw [zap_nonskip config c err hskip]
  intro r hr
  replace hr := Option.some.inj hr
  subst hr
  constructor
  · intro hid f hf
    simp only [allFields, List.mem_append] at hf
    rcases hf with ((((hf | hf) | hf) | hf) | hf) | hf
    · simp [baseFields] at hf
      rcases hf with h|h|h|h|h|h|h|h|h <;> subst h <;> simp
    · obtain ⟨⟨k, hk, hkey⟩, -⟩ :=
        getContextFields_shape c.request.ctx config.ContextKeys f hf
      rw [hkey]
      exact hctx k hk
    · simp [bytesFields] at hf
      rcases hf with h | h <;> subst h <;> simp
    · obtain ⟨b, hb, -⟩ := bodyStepFields_shape config c.request f hf
      subst hb
      simp
    · rcases errStepFields_shape err f hf with ⟨m, hm⟩ | ⟨m, hm⟩ <;>
        subst hm <;> simp
    · unfold requestIdFields at hf
      rw [if_neg hid] at hf
      simp at hf
  · intro hid
    simp only [allFields, List.mem_append]
    refine Or.inr ?_
    unfold requestIdFields
    rw [if_pos hid]
    simp

/-- Witness for the amended C5 at a concrete request that carries
`X-Request-Id` on both request and response. -/
theorem requestid_tiebreak_witness :
    noMapperConfig.Skipper reqIdCtx = false ∧
    (∀ k ∈ noMapperConfig.ContextKeys, k.repr ≠ "request_id") ∧
    ∀ r, (ZapLoggerWithConfig noMapperConfig reqIdCtx none).record = some r →
      (getHeader reqIdCtx.request.headers "X-Request-Id" ≠ "" →
        ∀ f ∈ r.fields, f.key ≠ "request_id") ∧
      (getHeader reqIdCtx.request.headers "X-Request-Id" = "" →
        Field.mk "request_id"
          (FieldValue.str (getHeader reqIdCtx.response.headers "X-Request-Id")) ∈
          r.fields) :=
  ⟨rfl, by intro k hk; simp [noMapperConfig] at hk,
    requestid_tiebreak noMapperConfig reqIdCtx none rfl
      (by intro k hk; simp [noMapperConfig] at hk)⟩

/-- C6: for every non-skipped request, a `body` field is present exactly
when body printing is on, the declared content length lies strictly
between 0 and 1024 and the body read succeeds, holding the raw payload
text; the body-read warning fires exactly when the guard holds and the
read fails; and the middleware still returns nil. -/
theorem body_capture (config : Config) (c : EchoContext) (err : Option Err)
    (hskip : config.Skipper c = false) :
    (∀ r, (ZapLoggerWithConfig config c err).record = some r →
      ∀ b, (Field.mk "body" (FieldValue.str b) ∈ r.fields ↔
        (bodyGuard config c.request ∧ c.request.body = .ok b))) ∧
    ((ZapLoggerWithConfig config c err).bodyWarn = true ↔
      (bodyGuard config c.request ∧ ∃ e, c.request.body = .error e)) ∧
    (ZapLoggerWithConfig config c err).ret = none := by
  rw [zap_nonskip config c err hskip]
  refine ⟨?_, bodyStepWarn_iff config c.request, rfl⟩
  intro r hr b
  replace hr := Option.some.inj hr
  subst hr
  constructor
  · intro hf
    simp only [allFields, List.mem_append] at hf
    rcases hf with ((((hf | hf) | hf) | hf) | hf) | hf
    · simp [baseFields] at hf
    · obtain ⟨-, v, hv⟩ :=
        getContextFields_shape c.request.ctx config.ContextKeys _ hf
      simp at hv
    · simp [bytesFields] at hf
    · exact (mem_bodyStepFields config c.request b).mp hf
    · rcases errStepFields_shape err _ hf with ⟨m, hm⟩ | ⟨m, hm⟩ <;> simp at hm
    · unfold requestIdFields at hf
      split at hf <;> simp at hf
  · intro hok
    simp only [allFields, List.mem_append]
    exact Or.inl (Or.inl (Or.inr
      ((mem_bodyStepFields config c.request b).mpr hok)))

/-- Witness for C6 at a concrete request with print-body enabled,
declared content length 5 and body text "hello". -/
theorem body_capture_witness :
    bodyConfig.Skipper bodyCtx = false ∧
    ((∀ r, (ZapLoggerWithConfig bodyConfig bodyCtx none).record = some r →
      ∀ b, (Field.mk "body" (FieldValue.str b) ∈ r.fields ↔
        (bodyGuard bodyConfig bodyCtx.request ∧ bodyCtx.request.body = .ok b))) ∧
    ((ZapLoggerWithConfig bodyConfig bodyCtx none).bodyWarn = true ↔
      (bodyGuard bodyConfig bodyCtx.request ∧
        ∃ e, bodyCtx.request.body = .error e)) ∧
    (ZapLoggerWithConfig bodyConfig bodyCtx none).ret = none) :=
  ⟨rfl, body_capture bodyConfig bodyCtx none rfl⟩

/-- C7: for every non-skipped request, the record carries a `bytes_in`
field equal to the declared `Content-Length` header parsed in base 10
(0 when the header is absent or unparseable) and a `bytes_out` field
equal to the response's written byte count. -/
theorem bytes_in_out (config : Config) (c : EchoContext) (err : Option Err)
    (hskip : config.Skipper c = false) :
    ∀ r, (ZapLoggerWithConfig config c err).record = some r →
      Field.mk "bytes_in" (FieldValue.int
        ((parseInt64 (getHeader c.request.headers "Content-Length")).getD 0)) ∈
        r.fields ∧
      Field.mk "bytes_out" (FieldValue.int c.response.size) ∈ r.fields ∧
      ((∀ p ∈ c.request.headers, p.1 ≠ "Content-Length") →
        Field.mk "bytes_in" (FieldValue.int 0) ∈ r.fields) ∧
      (parseInt64 (getHeader c.request.headers "Content-Length") = none →
        Field.mk "bytes_in" (FieldValue.int 0) ∈ r.fields) := by
  rw [zap_nonskip config c err hskip]
  intro r hr
  replace hr := Option.some.inj hr
  subst hr
  have h1 : Field.mk "bytes_in" (FieldValue.int (contentLength c.request)) ∈
      allFields config c err := by
    simp only [allFields, List.mem_append]
    exact Or.inl (Or.inl (Or.inl (Or.inr (by simp [bytesFields]))))
  have h2 : Field.mk "bytes_out" (FieldValue.int c.response.size) ∈
      allFields config c err := by
    simp only [allFields, List.mem_append]
    exact Or.inl (Or.inl (Or.inl (Or.inr (by simp [bytesFields]))))
  refine ⟨h1, h2, ?_, ?_⟩
  · intro habs
    have hz : contentLength c.request = 0 := by
      unfold contentLength
      rw [getHeader_of_absent c.request.headers "Content-Length" habs]
      rfl
    rw [← hz]
    exact h1
  · intro hparse
    have hz : contentLength c.request = 0 := by
      unfold contentLength
      rw [hparse]
      rfl
    rw [← hz]
    exact h1

/-- Witness for C7 at a concrete request with declared content length
5 and response size 2. -/
theorem bytes_in_out_witness :
    bodyConfig.Skipper bodyCtx = false ∧
    ∀ r, (ZapLoggerWithConfig bodyConfig bodyCtx none).record = some r →
      Field.mk "bytes_in" (FieldValue.int
        ((parseInt64 (getHeader bodyCtx.request.headers "Content-Length")).getD 0)) ∈
        r.fields ∧
      Field.mk "bytes_out" (FieldValue.int bodyCtx.response.size) ∈ r.fields ∧
      ((∀ p ∈ bodyCtx.request.headers, p.1 ≠ "Content-Length") →
        Field.mk "bytes_in" (FieldValue.int 0) ∈ r.fields) ∧
      (parseInt64 (getHeader bodyCtx.request.headers "Content-Length") = none →
        Field.mk "bytes_in" (FieldValue.int 0) ∈ r.fields) :=
  ⟨rfl, bytes_in_out bodyConfig bodyCtx none rfl⟩

/-- C8: the context-field segment of every non-skipped request's record
is exactly the in-order image of the configured keys whose context lookup
is non-nil, each formatted key paired with its looked-up value, and that
segment appears contiguously inside the record's fields. -/
theorem context_fields_spec (config : Config) (c : EchoContext)
    (err : Option Err) (hskip : config.Skipper c = false) :
    getContextFields c.request.ctx config.ContextKeys =
      config.ContextKeys.filterMap (fun k =>
        (ctxValue c.request.ctx k).map (fun v =>
          Field.mk k.repr (FieldValue.any v))) ∧
    ∀ r, (ZapLoggerWithConfig config c err).record = some r →
      ∃ pre post,
        r.fields = pre ++ getContextFields c.request.ctx config.ContextKeys ++
          post := by
  refine ⟨getContextFields_eq_filterMap c.request.ctx config.ContextKeys, ?_⟩
  rw [zap_nonskip config c err hskip]
  intro r hr
  replace hr := Option.some.inj hr
  subst hr
  refine ⟨baseFields c, bytesFields c ++ bodyStepFields config c.request ++
    errStepFields err ++ requestIdFields c, ?_⟩
  simp [allFields, List.append_assoc]

/-- Witness for C8 at a concrete request where one configured key is
present in the context and the other is not. -/
theorem context_fields_spec_witness :
    ctxConfig.Skipper ctxCtx = false ∧
    (getContextFields ctxCtx.request.ctx ctxConfig.ContextKeys =
      ctxConfig.ContextKeys.filterMap (fun k =>
        (ctxValue ctxCtx.request.ctx k).map (fun v =>
          Field.mk k.repr (FieldValue.any v))) ∧
    ∀ r, (ZapLoggerWithConfig ctxConfig ctxCtx none).record = some r →
      ∃ pre post,
        r.fields = pre ++ getContextFields ctxCtx.request.ctx ctxConfig.ContextKeys ++
          post) :=
  ⟨rfl, context_fields_spec ctxConfig ctxCtx none rfl⟩

/-- C10: the default configuration's skip predicate refuses every
request and body printing is enabled, so the no-config constructor emits
a record for every request. -/
theorem default_config_processes_all (c : EchoContext) (err : Option Err) :
    DefaultConfig.Skipper c = false ∧
    DefaultConfig.PrintBody = true ∧
    (ZapLogger c err).record.isSome = true := by
  refine ⟨rfl, rfl, ?_⟩
  unfold ZapLogger
  rw [zap_nonskip DefaultConfig c err rfl]
  rfl

end Echozap
